import Mathlib

/-!
Verification of the `pingdom.py` client library (danudey/python-pingdom).

This file gives a shallow embedding of the single source file
`src/pingdom.py`: a thin SOAP client for the Pingdom monitoring API.
The SOAP transport (`SOAPpy.WSDL.Proxy`) is an external collaborator; it is
modelled as a record of per-procedure responses, and every remote invocation
the client performs is recorded in a trace of `Call` values carrying the
procedure name and the positional arguments handed to the transport.

Python-level behaviour relevant to the claims is embedded explicitly:
  * exceptions become the `PyError` type threaded through `Except`;
  * `PingdomException.__init__` indexes the int-keyed `STATUS_CODES` dict
    with whatever status it is given, so constructing it with a status that
    is not a key raises `KeyError` instead (function
    `raisePingdomException`);
  * dynamic attribute lookup (for the `username` property) is modelled by
    the set of attribute names the program actually defines;
  * positional-arity checking (for `downtimes`) happens before a method
    body runs.

Operations are state transformers
`Transport → Pingdom → Except PyError α × Pingdom × List Call`
returning the result (or raised error), the updated client state and the
list of transport invocations performed, in order.
-/

namespace PingdomSpec

/-- The module-level `STATUS_CODES` dict (lines 23-32): int keys 0..7. -/
def STATUS_CODES : List (Nat × String) :=
  [(0, "OK"), (1, "Reserved"), (2, "Reserved"), (3, "Invalid Argument"),
   (4, "Internal Error"), (5, "Wrong Identification"),
   (6, "Wrong Authorization"), (7, "Wrong Authentication")]

/-- The module-level `CHECK_RESULTS` dict (lines 34-38). -/
def CHECK_RESULTS : List (String × String) :=
  [("CHECK_UP", "Up"), ("CHECK_DOWN", "Down"), ("CHECK_UNKNOWN", "Unknown")]

/-- The module-level `REPORT_RESOLUTIONS` dict (lines 40-44); note the
misspelling in the source of the value for the MONTHLY key. -/
def REPORT_RESOLUTIONS : List (String × String) :=
  [("DAILY", "Daily"), ("WEEKLY", "Weekly"), ("MONTHLY", "Montly")]

/-- A Python value used as an index into `STATUS_CODES`: the program passes
either an int status (from a transport response) or, at line 183, the
string "No such check available". -/
inductive StatusKey where
  | int (n : Nat)
  | str (s : String)
deriving DecidableEq, Repr

/-- Lookup `STATUS_CODES[key]` as a partial function: the dict is keyed by the ints
0..7, so a string key (or an int outside 0..7) is absent. -/
def statusLookup : StatusKey → Option String
  | .int n => STATUS_CODES.lookup n
  | .str _ => none

/-- Python `str(status)`, as used by the `"Error %s: %s"` formatting. -/
def statusStr : StatusKey → String
  | .int n => toString n
  | .str s => s

/-- Python exceptions raised by the program. -/
inductive PyError where
  /-- A fully constructed `PingdomException` carrying its `status` and the
  formatted `_message`. -/
  | pingdomException (status : StatusKey) (message : String)
  /-- `KeyError`, raised by a failed dict lookup (carries the key). -/
  | keyError (key : StatusKey)
  | valueError (msg : String)
  | typeError (msg : String)
  | attributeError (msg : String)
deriving DecidableEq, Repr

/-- The `_message` string `"Error %s: %s" % (status, STATUS_CODES[status])`
for a status that is a key of `STATUS_CODES`. -/
def pingdomMessage (n : Nat) : String :=
  "Error " ++ toString n ++ ": " ++ (STATUS_CODES.lookup n).getD ""

/-- Raising `PingdomException(status)` (class at lines 46-56): `__init__`
stores the status and builds `_message` via `STATUS_CODES[self.status]`.
When the status is not a key of the int-keyed dict — every string status,
and any int outside 0..7 — that lookup itself raises `KeyError`, so no
`PingdomException` value ever comes into existence. -/
def raisePingdomException (s : StatusKey) : PyError :=
  match statusLookup s with
  | some meaning =>
      .pingdomException s ("Error " ++ statusStr s ++ ": " ++ meaning)
  | none => .keyError s

/-- The credentials dict `{username: ..., password: ...}` (line 60). -/
structure CredMap where
  username : String
  password : String
deriving DecidableEq, Repr

/-- Via `SOAPpy.dateTimeType(t)`: the native date-time value of the transport, built
from (the first six elements of) a time tuple (line 154). -/
structure DateTimeType where
  tup : List Int
deriving DecidableEq, Repr

/-- The parameter map built by `_report_getDowntimes` (lines 139-144), with
keys `checkName`, `from`, `to`, `resolution` (`fromT`/`toT` stand for the
reserved-looking key names `from`/`to`). -/
structure DowntimeParams where
  checkName : String
  fromT : DateTimeType
  toT : DateTimeType
  resolution : String
deriving DecidableEq, Repr

/-- A SOAP result record; `x._asdict()` (lines 133, 148) converts it to a
plain key-value mapping, its `asdict` field. -/
structure SoapRecord where
  asdict : List (String × String)
deriving DecidableEq, Repr

/-- A positional argument handed to the transport. -/
inductive PyVal where
  | str (s : String)
  /-- Python `None` (the session id before login). -/
  | pyNone
  | cred (c : CredMap)
  | params (p : DowntimeParams)
deriving DecidableEq, Repr

/-- One remote invocation: procedure name and the positional arguments the
client passed to the transport. -/
structure Call where
  name : String
  args : List PyVal
deriving DecidableEq, Repr

/-- The external SOAP transport (`self._server`), modelled as the responses
it gives to each procedure. `Auth_logout` answers with a result map holding
a `status` field (line 106); `authLogoutResp` is that field.
`Check_getList` / `Location_getList` / `Report_getCurrentStates` /
`Report_getDowntimes` answer `(status, result)` where the `item` field of
the result map is the given list. -/
structure Transport where
  authLoginResp : Nat × String
  authLogoutResp : Nat
  checkGetListResp : Nat × List String
  locationGetListResp : Nat × List String
  statesResp : Nat × List SoapRecord
  downtimesResp : DowntimeParams → Nat × List SoapRecord
  echoResp : String → Nat × String

/-- The mutable state of a `Pingdom` instance: the attributes `__init__`
assigns (lines 60-65), save `_server` which is the `Transport` passed
separately. -/
structure Pingdom where
  _credentials : CredMap
  _apikey : String
  _sessionid : Option String
  _checks : Option (List String)
  _locations : Option (List String)
deriving DecidableEq, Repr

/-- The value `_callWithParams` passes in second position: the session id,
a string after login, Python `None` before. -/
def sessionVal : Option String → PyVal
  | some s => .str s
  | none => .pyNone

/-- The invocation built by `_callWithParams(*args)` (lines 84-90): the
method named `args[0]` is called with the API key first, then the
credentials map for `Auth_login` and the session id for every other call,
then the remaining arguments positionally. -/
def mkCall (st : Pingdom) (name : String) (extra : List PyVal) : Call :=
  { name := name
    args := PyVal.str st._apikey ::
      (if name = "Auth_login" then PyVal.cred st._credentials
       else sessionVal st._sessionid) :: extra }

/-- Number of calls to procedure `n` in a trace. -/
def countName (tr : List Call) (n : String) : Nat :=
  (tr.filter (fun c => c.name = n)).length

/-- The result of one client operation: the returned value or raised
exception, the updated instance state, and the transport invocations made. -/
abbrev OpResult (α : Type) := Except PyError α × Pingdom × List Call

/-- Method `_login` (lines 92-100): one `Auth_login` invocation; on status 0 the
session id is stored and `True` returned, otherwise
`PingdomException(status)` is raised. -/
def _login (T : Transport) (st : Pingdom) : OpResult Bool :=
  let c := mkCall st "Auth_login" []
  let status := T.authLoginResp.1
  let sessionid := T.authLoginResp.2
  if status = 0 then
    (.ok true, { st with _sessionid := some sessionid }, [c])
  else
    (.error (raisePingdomException (.int status)), st, [c])

/-- Constructor `__init__` (lines 59-67): record credentials and API key, null out the
session id and both caches, then immediately `_login`. On a login failure
the constructor raises and no instance is produced. -/
def pingdomInit (T : Transport) (username password apikey : String) :
    Except PyError Pingdom × List Call :=
  let st : Pingdom :=
    { _credentials := { username := username, password := password }
      _apikey := apikey
      _sessionid := none
      _checks := none
      _locations := none }
  match _login T st with
  | (.ok _, st2, tr) => (.ok st2, tr)
  | (.error e, _, tr) => (.error e, tr)

/-- Method `_logout` (lines 102-111): a no-op returning `True` when the session id
is `None`; otherwise one `Auth_logout` invocation, whose result map field
`status` decides: 0 clears the session id and returns `True`, any
other value raises `PingdomException(status)`. -/
def _logout (T : Transport) (st : Pingdom) : OpResult Bool :=
  match st._sessionid with
  | none => (.ok true, st, [])
  | some _ =>
    let c := mkCall st "Auth_logout" []
    let status := T.authLogoutResp
    if status = 0 then
      (.ok true, { st with _sessionid := none }, [c])
    else
      (.error (raisePingdomException (.int status)), st, [c])

/-- What `del client` observes. CPython finalizer semantics: an exception
escaping `__del__` is never propagated to the code that dropped the
reference; the interpreter reports it on `sys.stderr` (the side logging
channel) and continues. -/
structure DelResult where
  /-- The exception the caller sees: always `none` under `__del__`. -/
  raisedToCaller : Option PyError
  /-- The exception reported on the side channel, if any. -/
  sideChannel : Option PyError
  calls : List Call
deriving DecidableEq, Repr

/-- Finalizer `__del__` (lines 199-200) runs `self._logout()`; any exception it
raises is swallowed by the interpreter and reported on the side channel. -/
def delOp (T : Transport) (st : Pingdom) : DelResult :=
  match _logout T st with
  | (.ok _, _, tr) => { raisedToCaller := none, sideChannel := none, calls := tr }
  | (.error e, _, tr) => { raisedToCaller := none, sideChannel := some e, calls := tr }

/-- Method `_check_getList` (lines 113-119): one `Check_getList` invocation; on
status 0 the `item` field of the result is stored in `_checks`, otherwise
`PingdomException(status)` is raised. -/
def _check_getList (T : Transport) (st : Pingdom) : OpResult Bool :=
  let c := mkCall st "Check_getList" []
  let status := T.checkGetListResp.1
  if status = 0 then
    (.ok true, { st with _checks := some T.checkGetListResp.2 }, [c])
  else
    (.error (raisePingdomException (.int status)), st, [c])

/-- Method `_location_getList` (lines 121-127), identically for `_locations`. -/
def _location_getList (T : Transport) (st : Pingdom) : OpResult Bool :=
  let c := mkCall st "Location_getList" []
  let status := T.locationGetListResp.1
  if status = 0 then
    (.ok true, { st with _locations := some T.locationGetListResp.2 }, [c])
  else
    (.error (raisePingdomException (.int status)), st, [c])

/-- The `checks` property (lines 158-162): fetch via `_check_getList` when
`_checks` is `None`, then return the attribute `self._checks` as it then
stands. -/
def checksProp (T : Transport) (st : Pingdom) : OpResult (Option (List String)) :=
  match st._checks with
  | some _ => (.ok st._checks, st, [])
  | none =>
    match _check_getList T st with
    | (.ok _, st2, tr) => (.ok st2._checks, st2, tr)
    | (.error e, st2, tr) => (.error e, st2, tr)

/-- The `locations` property (lines 164-168). -/
def locationsProp (T : Transport) (st : Pingdom) : OpResult (Option (List String)) :=
  match st._locations with
  | some _ => (.ok st._locations, st, [])
  | none =>
    match _location_getList T st with
    | (.ok _, st2, tr) => (.ok st2._locations, st2, tr)
    | (.error e, st2, tr) => (.error e, st2, tr)

/-- Method `_report_getCurrentStates` (lines 129-136): one
`Report_getCurrentStates` invocation; on status 0 each record of the
`item` field of the result is converted with `_asdict()`, otherwise
`PingdomException(status)` is raised. -/
def _report_getCurrentStates (T : Transport) (st : Pingdom) :
    OpResult (List (List (String × String))) :=
  let c := mkCall st "Report_getCurrentStates" []
  let status := T.statesResp.1
  if status = 0 then
    (.ok (T.statesResp.2.map SoapRecord.asdict), st, [c])
  else
    (.error (raisePingdomException (.int status)), st, [c])

/-- The `states` property (lines 170-172): a fresh
`_report_getCurrentStates()` on every access, nothing cached. -/
def statesProp (T : Transport) (st : Pingdom) :
    OpResult (List (List (String × String))) :=
  _report_getCurrentStates T st

/-- Method `_convertTime` (lines 153-154): `SOAPpy.dateTimeType(time[:6])`. A time
argument is a time tuple or `None`; slicing `None` raises `TypeError`. -/
def _convertTime (t : Option (List Int)) : Except PyError DateTimeType :=
  match t with
  | some ts => .ok { tup := ts.take 6 }
  | none => .error (.typeError "NoneType object is unsubscriptable")

/-- Method `_report_getDowntimes` (lines 138-151). The parameter map is built with
the literal string Communicate for `checkName` (line 140) and the
literal string DAILY for `resolution` (line 143); only `from`/`to` come from
the arguments, via `_convertTime`. The `check` and `resolution` arguments
are bound but never read by the body. One `Report_getDowntimes` invocation
with that map; on status 0 each record of the `item` field of the result is
converted with `_asdict()`, otherwise `PingdomException(status)` raised. -/
def _report_getDowntimes (T : Transport) (st : Pingdom)
    (check : Option String) (starttime endtime : Option (List Int))
    (resolution : Option String) :
    OpResult (List (List (String × String))) :=
  match _convertTime starttime with
  | .error e => (.error e, st, [])
  | .ok fromV =>
    match _convertTime endtime with
    | .error e => (.error e, st, [])
    | .ok toV =>
      let ps : DowntimeParams :=
        { checkName := "Communicate", fromT := fromV, toT := toV,
          resolution := "DAILY" }
      let c := mkCall st "Report_getDowntimes" [PyVal.params ps]
      let status := (T.downtimesResp ps).1
      if status = 0 then
        (.ok ((T.downtimesResp ps).2.map SoapRecord.asdict), st, [c])
      else
        (.error (raisePingdomException (.int status)), st, [c])

/-- Number of required positional parameters of `_report_getDowntimes`
after `self`: `check, starttime, endtime, resolution` (line 138). -/
def report_getDowntimes_nparams : Nat := 4

/-- Method `downtimes` (lines 174-175): `return self._report_getDowntimes()` with
an empty argument list. Python binds positional arguments before a body
runs; a call that does not supply exactly the four required arguments
raises `TypeError` at the call site, so the body — and any transport
invocation — is never reached. -/
def downtimes (T : Transport) (st : Pingdom) :
    OpResult (List (List (String × String))) :=
  if h : ([] : List PyVal).length = report_getDowntimes_nparams then
    absurd h (by decide)
  else
    (.error (.typeError
      "_report_getDowntimes() takes exactly 5 arguments (1 given)"), st, [])

/-- Python `x in d` for the `REPORT_RESOLUTIONS` dict: membership among its
keys; `None` is not a key. -/
def resolutionKnown (resolution : Option String) : Bool :=
  match resolution with
  | some r => (REPORT_RESOLUTIONS.map Prod.fst).contains r
  | none => false

/-- Python `check in self.checks` once the property has produced the value
of the `_checks` attribute: membership among the cached items for a string,
false for `None` (the item list holds no `None`); iterating `None` (the
attribute still unset) would raise `TypeError`. -/
def pyInChecks (check : Option String) (checks : Option (List String)) :
    Except PyError Bool :=
  match checks with
  | some cs =>
    .ok (match check with
         | some s => cs.contains s
         | none => false)
  | none => .error (.typeError "argument of type NoneType is not iterable")

/-- Method `downtimesFor` (lines 177-187), with its four validation rules in
source order: (1) `starttime == endtime` raises `ValueError`; (2)
`resolution not in REPORT_RESOLUTIONS` raises `ValueError`; (3) `check`
not in `self.checks` (resolving the property, which may fetch) executes
`raise PingdomException("No such check available")`; (4) `None` among the
four arguments raises `TypeError`; otherwise the call is delegated to
`_report_getDowntimes`. -/
def downtimesFor (T : Transport) (st : Pingdom) (check : Option String)
    (starttime endtime : Option (List Int)) (resolution : Option String) :
    OpResult (List (List (String × String))) :=
  if starttime = endtime then
    (.error (.valueError "Start time and end time must be different"), st, [])
  else if ¬ resolutionKnown resolution then
    (.error (.valueError "Invalid report resolution"), st, [])
  else
    match checksProp T st with
    | (.error e, st2, tr) => (.error e, st2, tr)
    | (.ok cs, st2, tr) =>
      match pyInChecks check cs with
      | .error e => (.error e, st2, tr)
      | .ok mem =>
        if ¬ mem then
          (.error (raisePingdomException (.str "No such check available")), st2, tr)
        else if check = none ∨ starttime = none ∨ endtime = none ∨ resolution = none then
          (.error (.typeError "Invalid type: NoneType"), st2, tr)
        else
          match _report_getDowntimes T st2 check starttime endtime resolution with
          | (r, st3, tr2) => (r, st3, tr ++ tr2)

/-- Method `echo` (lines 190-195): `self._server.Test_echo(inString)` directly —
not through `_callWithParams` — so the only positional argument handed to
the transport is the input string. -/
def echo (T : Transport) (st : Pingdom) (inString : String) : OpResult String :=
  let c : Call := { name := "Test_echo", args := [PyVal.str inString] }
  let status := (T.echoResp inString).1
  if status = 0 then
    (.ok (T.echoResp inString).2, st, [c])
  else
    (.error (raisePingdomException (.int status)), st, [c])

/-- Attribute names `__init__` assigns on the instance (lines 60-65). -/
def pingdomInstanceAttrs : List String :=
  ["_credentials", "_apikey", "_server", "_sessionid", "_checks", "_locations"]

/-- Names defined on the class `Pingdom` (its properties and methods). -/
def pingdomClassAttrs : List String :=
  ["loggedin", "username", "apikey", "checks", "locations", "states",
   "downtimes", "downtimesFor", "echo", "_callWithParams", "_login",
   "_logout", "_check_getList", "_location_getList",
   "_report_getCurrentStates", "_report_getDowntimes", "_convertTime"]

/-- Python attribute lookup on a `Pingdom` instance: the instance
dictionary, then the class. -/
def pingdomHasAttr (name : String) : Bool :=
  pingdomInstanceAttrs.contains name || pingdomClassAttrs.contains name

/-- The `username` property (lines 74-76):
`return self.credentials[username]`. The lookup of the attribute
`credentials` decides: were it defined it would be the credentials dict
(whose `username` entry would be returned); since the constructor only ever
stores the dict under `_credentials`, the lookup raises `AttributeError`. -/
def usernameProp (st : Pingdom) : Except PyError String :=
  if pingdomHasAttr "credentials" then
    .ok st._credentials.username
  else
    .error (.attributeError "Pingdom instance has no attribute credentials")

/-- One access to a lazily cached property, for reasoning about sequences
of accesses on the same instance. -/
inductive CacheAccess where
  | checksA
  | locationsA
deriving DecidableEq, Repr

/-- Run a sequence of accesses to the `checks` / `locations` properties on
one instance, collecting every transport invocation in order. -/
def runAccesses (T : Transport) (st : Pingdom) :
    List CacheAccess → Pingdom × List Call
  | [] => (st, [])
  | a :: rest =>
    let step : Pingdom × List Call :=
      match a with
      | .checksA => ((checksProp T st).2.1, (checksProp T st).2.2)
      | .locationsA => ((locationsProp T st).2.1, (locationsProp T st).2.2)
    let r := runAccesses T step.1 rest
    (r.1, step.2 ++ r.2)

/-- Run `n` consecutive accesses to the `states` property on one instance,
collecting every transport invocation in order. -/
def runStates (T : Transport) (st : Pingdom) : Nat → Pingdom × List Call
  | 0 => (st, [])
  | n + 1 =>
    let s := statesProp T st
    let r := runStates T s.2.1 n
    (r.1, s.2.2 ++ r.2)

/-! ### Concrete fixtures used to evaluate the definitions -/

/-- A transport that accepts every call with status 0. -/
def T0 : Transport :=
  { authLoginResp := (0, "sess1")
    authLogoutResp := 0
    checkGetListResp := (0, ["Communicate", "MyCheck"])
    locationGetListResp := (0, ["Stockholm"])
    statesResp := (0, [{ asdict := [("name", "MyCheck"), ("status", "CHECK_UP")] }])
    downtimesResp := fun _ => (0, [{ asdict := [("downtime", "60")] }])
    echoResp := fun s => (0, s) }

/-- A transport that rejects every call with a non-zero status. -/
def Tfail : Transport :=
  { authLoginResp := (5, "")
    authLogoutResp := 4
    checkGetListResp := (4, [])
    locationGetListResp := (4, [])
    statesResp := (6, [])
    downtimesResp := fun _ => (4, [])
    echoResp := fun _ => (7, "") }

/-- A 9-element time tuple (2009-01-01 00:00:00). -/
def tTup1 : List Int := [2009, 1, 1, 0, 0, 0, 0, 1, 0]

/-- A 9-element time tuple (2009-02-01 00:00:00). -/
def tTup2 : List Int := [2009, 2, 1, 0, 0, 0, 0, 32, 0]

/-- A logged-in instance with both caches still unset. -/
def stFresh : Pingdom :=
  { _credentials := { username := "user", password := "pw" }
    _apikey := "key1"
    _sessionid := some "sess1"
    _checks := none
    _locations := none }

/-- A logged-in instance whose `_checks` cache is already populated. -/
def stCached : Pingdom :=
  { stFresh with _checks := some ["Communicate", "MyCheck"] }

/-! ### Helper lemmas -/

theorem countName_append (l m : List Call) (n : String) :
    countName (l ++ m) n = countName l n + countName m n := by
  simp [countName, List.filter_append]

/-- For a status in the 8-entry enumeration, `raise PingdomException(status)`
constructs the exception with that status and the formatted message. -/
theorem raisePingdom_int_eq (n : Nat) (h : n < 8) :
    raisePingdomException (.int n)
      = .pingdomException (.int n) (pingdomMessage n) := by
  interval_cases n <;> decide

/-- A cached `checks` access returns the cache, with no invocation. -/
theorem checksProp_cached (T : Transport) (st : Pingdom) (l : List String)
    (h : st._checks = some l) :
    checksProp T st = (.ok (some l), st, []) := by
  simp [checksProp, h]

/-- A first `checks` access against an accepting transport fetches once and
populates the cache with the `item` field of the result. -/
theorem checksProp_fresh (T : Transport) (st : Pingdom)
    (h : st._checks = none) (h0 : T.checkGetListResp.1 = 0) :
    checksProp T st
      = (.ok (some T.checkGetListResp.2),
         { st with _checks := some T.checkGetListResp.2 },
         [mkCall st "Check_getList" []]) := by
  simp [checksProp, _check_getList, h, h0]

/-- A cached `locations` access returns the cache, with no invocation. -/
theorem locationsProp_cached (T : Transport) (st : Pingdom) (l : List String)
    (h : st._locations = some l) :
    locationsProp T st = (.ok (some l), st, []) := by
  simp [locationsProp, h]

/-- A first `locations` access against an accepting transport fetches once
and populates the cache with the `item` field of the result. -/
theorem locationsProp_fresh (T : Transport) (st : Pingdom)
    (h : st._locations = none) (h0 : T.locationGetListResp.1 = 0) :
    locationsProp T st
      = (.ok (some T.locationGetListResp.2),
         { st with _locations := some T.locationGetListResp.2 },
         [mkCall st "Location_getList" []]) := by
  simp [locationsProp, _location_getList, h, h0]

/-! ### Claims -/

/-- C1: evaluating `downtimesFor` at a validated input (check `MyCheck`
cached in the checks list, distinct start/end times, resolution `WEEKLY`)
dispatches exactly one `Report_getDowntimes` invocation whose parameter map
carries `checkName = "Communicate"` and `resolution = "DAILY"` — the
hardcoded literals of lines 140 and 143 — rather than the caller-supplied
check and resolution; only `from`/`to` are built from the arguments (first
six tuple elements, as the native date-time value). -/
theorem C1_downtimes_params_hardcoded :
    (downtimesFor T0 stCached (some "MyCheck") (some tTup1) (some tTup2)
        (some "WEEKLY")).2.2
      = [{ name := "Report_getDowntimes",
           args := [PyVal.str "key1", PyVal.str "sess1",
                    PyVal.params
                      { checkName := "Communicate",
                        fromT := { tup := [2009, 1, 1, 0, 0, 0] },
                        toT := { tup := [2009, 2, 1, 0, 0, 0] },
                        resolution := "DAILY" }] }]
    ∧ "Communicate" ≠ "MyCheck" ∧ "DAILY" ≠ "WEEKLY" :=
  ⟨rfl, by decide, by decide⟩

/-- C2: a check absent from the checks collection (times differing,
resolution recognized) makes `downtimesFor` execute
`raise PingdomException("No such check available")`, but
`PingdomException.__init__` indexes the int-keyed `STATUS_CODES` dict with
that string, so the access raises `KeyError` instead of a constructed
not-found error; zero `Report_getDowntimes` invocations occur and resolving
`checks` triggers exactly one `Check_getList` call here. -/
theorem C2_missing_check_raises_KeyError :
    (downtimesFor T0 stFresh (some "NoSuchCheck") (some tTup1) (some tTup2)
        (some "DAILY")).1
      = Except.error (PyError.keyError (.str "No such check available"))
    ∧ countName (downtimesFor T0 stFresh (some "NoSuchCheck") (some tTup1)
        (some tTup2) (some "DAILY")).2.2 "Report_getDowntimes" = 0
    ∧ countName (downtimesFor T0 stFresh (some "NoSuchCheck") (some tTup1)
        (some tTup2) (some "DAILY")).2.2 "Check_getList" = 1 :=
  ⟨rfl, rfl, rfl⟩

/-- C3: disposal of a client holding a session token issues exactly one
`Auth_logout` invocation; nothing is ever raised to the caller, and when
the logout status is non-zero the failure appears only on the side logging
channel. -/
theorem C3_disposal_swallows_logout_failure (T : Transport) (st : Pingdom)
    (sid : String) (h : st._sessionid = some sid) :
    (delOp T st).calls = [mkCall st "Auth_logout" []]
    ∧ countName (delOp T st).calls "Auth_logout" = 1
    ∧ (delOp T st).raisedToCaller = none
    ∧ (T.authLogoutResp ≠ 0 →
        (delOp T st).sideChannel
          = some (raisePingdomException (.int T.authLogoutResp))) := by
  by_cases h0 : T.authLogoutResp = 0 <;>
    simp [delOp, _logout, h, h0, countName, mkCall]

theorem C3_disposal_swallows_logout_failure_witness :
    (delOp Tfail stCached).calls = [mkCall stCached "Auth_logout" []]
    ∧ countName (delOp Tfail stCached).calls "Auth_logout" = 1
    ∧ (delOp Tfail stCached).raisedToCaller = none
    ∧ (delOp Tfail stCached).sideChannel
        = some (raisePingdomException (.int Tfail.authLogoutResp)) := by
  have h := C3_disposal_swallows_logout_failure Tfail stCached "sess1" rfl
  exact ⟨h.1, h.2.1, h.2.2.1, h.2.2.2 (by decide)⟩

/-- C4 counterexample: the claim quantifies over every remote call
including `Test_echo` via `echo`, but `echo` calls the transport method
directly (line 191), so the first positional argument of the recorded
`Test_echo` invocation is the input string, not the API key of the
instance. -/
theorem C4_echo_bypasses_dispatch :
    (echo T0 stFresh "hello").2.2
      = [{ name := "Test_echo", args := [PyVal.str "hello"] }]
    ∧ PyVal.str "hello" ≠ PyVal.str stFresh._apikey :=
  ⟨rfl, by decide⟩

/-- C4 amended: every remote call issued through the internal dispatch
helper `_callWithParams` — i.e. every call of the client except `Test_echo`
— passes the API key first and then the credentials map (for `Auth_login`)
or the session token (for every other call), with call-specific arguments
following positionally; `echo` bypasses the helper and hands the transport
only the input string. -/
theorem C4_dispatch_argument_order (T : Transport) (st : Pingdom) :
    (∀ c ∈ (_login T st).2.2,
      c.args.take 2 = [PyVal.str st._apikey, PyVal.cred st._credentials])
    ∧ (∀ c ∈ (_logout T st).2.2,
      c.args.take 2 = [PyVal.str st._apikey, sessionVal st._sessionid])
    ∧ (∀ c ∈ (_check_getList T st).2.2,
      c.args.take 2 = [PyVal.str st._apikey, sessionVal st._sessionid])
    ∧ (∀ c ∈ (_location_getList T st).2.2,
      c.args.take 2 = [PyVal.str st._apikey, sessionVal st._sessionid])
    ∧ (∀ c ∈ (_report_getCurrentStates T st).2.2,
      c.args.take 2 = [PyVal.str st._apikey, sessionVal st._sessionid])
    ∧ (∀ check starttime endtime resolution,
        ∀ c ∈ (_report_getDowntimes T st check starttime endtime resolution).2.2,
      c.args.take 2 = [PyVal.str st._apikey, sessionVal st._sessionid])
    ∧ (∀ s, ((echo T st s).2.2).map Call.args = [[PyVal.str s]]) := by
  refine ⟨?_, ?_, ?_, ?_, ?_, ?_, ?_⟩
  · intro c hc
    by_cases h0 : T.authLoginResp.1 = 0 <;>
      simp [_login, h0, mkCall] at hc <;> simp [hc]
  · intro c hc
    rcases hst : st._sessionid with _ | sid
    · simp [_logout, hst] at hc
    · by_cases h0 : T.authLogoutResp = 0 <;>
        simp [_logout, hst, h0, mkCall] at hc <;>
        simp [hc, hst, sessionVal]
  · intro c hc
    by_cases h0 : T.checkGetListResp.1 = 0 <;>
      simp [_check_getList, h0, mkCall] at hc <;> simp [hc]
  · intro c hc
    by_cases h0 : T.locationGetListResp.1 = 0 <;>
      simp [_location_getList, h0, mkCall] at hc <;> simp [hc]
  · intro c hc
    by_cases h0 : T.statesResp.1 = 0 <;>
      simp [_report_getCurrentStates, h0, mkCall] at hc <;> simp [hc]
  · intro check starttime endtime resolution c hc
    rcases starttime with _ | ts
    · simp [_report_getDowntimes, _convertTime] at hc
    rcases endtime with _ | te
    · simp [_report_getDowntimes, _convertTime] at hc
    by_cases h0 : (T.downtimesResp
        { checkName := "Communicate", fromT := { tup := ts.take 6 },
          toT := { tup := te.take 6 }, resolution := "DAILY" }).1 = 0 <;>
      simp [_report_getDowntimes, _convertTime, h0, mkCall] at hc <;>
      simp [hc]
  · intro s
    by_cases h0 : (T.echoResp s).1 = 0 <;> simp [echo, h0]

theorem C4_dispatch_argument_order_witness :
    (mkCall stFresh "Auth_login" []).args.take 2
      = [PyVal.str "key1", PyVal.cred { username := "user", password := "pw" }]
    ∧ ((echo T0 stFresh "hello").2.2).map Call.args = [[PyVal.str "hello"]] := by
  have h := C4_dispatch_argument_order T0 stFresh
  exact ⟨h.1 (mkCall stFresh "Auth_login" []) (by decide), h.2.2.2.2.2.2 "hello"⟩

/-- C5: construction performs exactly one `Auth_login` invocation; on
status 0 the produced instance holds the returned session id, and on a
non-zero status (within the 8-code enumeration of the protocol)
construction raises a `PingdomException` carrying exactly that status code
and no instance is produced. -/
theorem C5_constructor_login (T : Transport) (u p k : String)
    (hdom : T.authLoginResp.1 < 8) :
    (pingdomInit T u p k).2.length = 1
    ∧ countName (pingdomInit T u p k).2 "Auth_login" = 1
    ∧ (T.authLoginResp.1 = 0 →
        ∃ st, (pingdomInit T u p k).1 = Except.ok st
          ∧ st._sessionid = some T.authLoginResp.2)
    ∧ (T.authLoginResp.1 ≠ 0 →
        (pingdomInit T u p k).1
          = Except.error (PyError.pingdomException (.int T.authLoginResp.1)
              (pingdomMessage T.authLoginResp.1))) := by
  by_cases h0 : T.authLoginResp.1 = 0 <;>
    simp [pingdomInit, _login, h0, countName, mkCall,
          raisePingdom_int_eq T.authLoginResp.1 hdom]

theorem C5_constructor_login_witness :
    ((pingdomInit Tfail "user" "pw" "key1").1
      = Except.error (PyError.pingdomException (.int 5) (pingdomMessage 5)))
    ∧ ∃ st, (pingdomInit T0 "user" "pw" "key1").1 = Except.ok st
        ∧ st._sessionid = some "sess1" := by
  have hf := (C5_constructor_login Tfail "user" "pw" "key1" (by decide)).2.2.2
  have hs := (C5_constructor_login T0 "user" "pw" "key1" (by decide)).2.2.1
  exact ⟨hf (by decide), hs (by decide)⟩

/-- C6: the four validation rules of `downtimesFor` run in source order
with the first failure winning — rule 1 (equal times) fires with zero
invocations even when the resolution is also bad; rule 2 (unknown
resolution, including `None`) fires with zero invocations before the
`None` check of rule 4; rule 4 raises `TypeError` with zero invocations
once the first three pass — and the `Report_getDowntimes` dispatch happens
exactly once when all four pass. However rule 3, instead of producing the
claimed not-found error, raises `KeyError` out of
`PingdomException.__init__` (the string status is not a key of
`STATUS_CODES`). -/
theorem C6_validation_order :
    (downtimesFor T0 stFresh (some "MyCheck") (some tTup1) (some tTup1)
        (some "HOURLY"))
      = (Except.error (PyError.valueError
          "Start time and end time must be different"), stFresh, [])
    ∧ (downtimesFor T0 stFresh (some "NoSuchCheck") (some tTup1) (some tTup2)
        none)
      = (Except.error (PyError.valueError "Invalid report resolution"),
         stFresh, [])
    ∧ (downtimesFor T0 stCached (some "NoSuchCheck") (some tTup1) none
        (some "DAILY"))
      = (Except.error (PyError.keyError (.str "No such check available")),
         stCached, [])
    ∧ (downtimesFor T0 stCached (some "MyCheck") (some tTup1) none
        (some "DAILY"))
      = (Except.error (PyError.typeError "Invalid type: NoneType"),
         stCached, [])
    ∧ countName (downtimesFor T0 stCached (some "MyCheck") (some tTup1)
        (some tTup2) (some "DAILY")).2.2 "Report_getDowntimes" = 1 :=
  ⟨rfl, rfl, rfl, rfl, rfl⟩

theorem countName_nil (n : String) : countName [] n = 0 := rfl

theorem countName_singleton (c : Call) (n : String) :
    countName [c] n = if c.name = n then 1 else 0 := by
  by_cases h : c.name = n <;> simp [countName, h]

/-- Across any interleaved sequence of accesses, each lazy property fetches
at most once more than its cache already allows. -/
theorem runAccesses_bound (T : Transport) (accs : List CacheAccess) :
    ∀ st : Pingdom, T.checkGetListResp.1 = 0 → T.locationGetListResp.1 = 0 →
      countName (runAccesses T st accs).2 "Check_getList"
        ≤ (if st._checks = none then 1 else 0)
      ∧ countName (runAccesses T st accs).2 "Location_getList"
        ≤ (if st._locations = none then 1 else 0) := by
  induction accs with
  | nil => intro st hc hl; simp [runAccesses, countName]
  | cons a rest ih =>
    intro st hc hl
    cases a with
    | checksA =>
      rcases h : st._checks with _ | l
      · have hstep := checksProp_fresh T st h hc
        have hih := ih { st with _checks := some T.checkGetListResp.2 } hc hl
        simp only [runAccesses, hstep, countName_append, countName_singleton,
          mkCall] at hih ⊢
        simp [h] at hih ⊢
        obtain ⟨h1, h2⟩ := hih
        exact ⟨by omega, h2⟩
      · have hstep := checksProp_cached T st l h
        have hih := ih st hc hl
        simp only [runAccesses, hstep, countName_append, countName_nil]
        simp [h] at hih ⊢
        exact hih
    | locationsA =>
      rcases h : st._locations with _ | l
      · have hstep := locationsProp_fresh T st h hl
        have hih := ih { st with _locations := some T.locationGetListResp.2 } hc hl
        simp only [runAccesses, hstep, countName_append, countName_singleton,
          mkCall] at hih ⊢
        simp [h] at hih ⊢
        obtain ⟨h1, h2⟩ := hih
        exact ⟨h1, by omega⟩
      · have hstep := locationsProp_cached T st l h
        have hih := ih st hc hl
        simp only [runAccesses, hstep, countName_append, countName_nil]
        simp [h] at hih ⊢
        exact hih

/-- C7: across any interleaved sequence of accesses to the `checks` and
`locations` properties on one instance (against a transport answering both
list calls with status 0), at most one `Check_getList` and at most one
`Location_getList` invocation occur; a populated cache is returned with no
invocation, and a first access stores the `item` field of the result —
each cache independently of the other. -/
theorem C7_lazy_properties_fetch_once (T : Transport) (st : Pingdom)
    (accs : List CacheAccess)
    (hc : T.checkGetListResp.1 = 0) (hl : T.locationGetListResp.1 = 0) :
    countName (runAccesses T st accs).2 "Check_getList" ≤ 1
    ∧ countName (runAccesses T st accs).2 "Location_getList" ≤ 1
    ∧ (∀ l, st._checks = some l →
        checksProp T st = (Except.ok (some l), st, []))
    ∧ (st._checks = none → checksProp T st
        = (Except.ok (some T.checkGetListResp.2),
           { st with _checks := some T.checkGetListResp.2 },
           [mkCall st "Check_getList" []]))
    ∧ (∀ l, st._locations = some l →
        locationsProp T st = (Except.ok (some l), st, []))
    ∧ (st._locations = none → locationsProp T st
        = (Except.ok (some T.locationGetListResp.2),
           { st with _locations := some T.locationGetListResp.2 },
           [mkCall st "Location_getList" []])) := by
  obtain ⟨h1, h2⟩ := runAccesses_bound T accs st hc hl
  refine ⟨le_trans h1 ?_, le_trans h2 ?_,
    fun l h => checksProp_cached T st l h,
    fun h => checksProp_fresh T st h hc,
    fun l h => locationsProp_cached T st l h,
    fun h => locationsProp_fresh T st h hl⟩
  · split <;> omega
  · split <;> omega

theorem C7_lazy_properties_fetch_once_witness :
    countName (runAccesses T0 stFresh
      [CacheAccess.checksA, CacheAccess.checksA, CacheAccess.locationsA,
       CacheAccess.checksA, CacheAccess.locationsA]).2 "Check_getList" ≤ 1
    ∧ countName (runAccesses T0 stFresh
      [CacheAccess.checksA, CacheAccess.checksA, CacheAccess.locationsA,
       CacheAccess.checksA, CacheAccess.locationsA]).2 "Location_getList" ≤ 1
    ∧ checksProp T0 stFresh
        = (Except.ok (some ["Communicate", "MyCheck"]),
           { stFresh with _checks := some ["Communicate", "MyCheck"] },
           [mkCall stFresh "Check_getList" []]) := by
  have h := C7_lazy_properties_fetch_once T0 stFresh
    [CacheAccess.checksA, CacheAccess.checksA, CacheAccess.locationsA,
     CacheAccess.checksA, CacheAccess.locationsA] rfl rfl
  exact ⟨h.1, h.2.1, h.2.2.2.1 rfl⟩

/-- Each `states` access performs exactly one invocation and leaves the
instance state unchanged (nothing is cached). -/
theorem statesProp_step (T : Transport) (st : Pingdom) :
    (statesProp T st).2.2 = [mkCall st "Report_getCurrentStates" []]
    ∧ (statesProp T st).2.1 = st := by
  by_cases h0 : T.statesResp.1 = 0 <;>
    simp [statesProp, _report_getCurrentStates, h0]

theorem runStates_count (T : Transport) (N : Nat) :
    ∀ st : Pingdom,
      (runStates T st N).2.length = N
      ∧ countName (runStates T st N).2 "Report_getCurrentStates" = N := by
  induction N with
  | zero => intro st; simp [runStates, countName]
  | succ n ih =>
    intro st
    have hs := statesProp_step T st
    have hih := ih (statesProp T st).2.1
    simp only [runStates, countName_append, hs.1, hs.2, countName_singleton,
      mkCall, List.length_append] at hih ⊢
    simp at hih ⊢
    omega

/-- C8: `N` accesses to the `states` property perform exactly `N`
`Report_getCurrentStates` invocations (no caching); on status 0 an access
returns the records of the `item` field each converted with `_asdict()`,
and on a non-zero status (within the 8-code enumeration of the protocol)
the access raises a `PingdomException` carrying that status code. -/
theorem C8_states_never_cached (T : Transport) (st : Pingdom) (N : Nat)
    (hdom : T.statesResp.1 < 8) :
    (runStates T st N).2.length = N
    ∧ countName (runStates T st N).2 "Report_getCurrentStates" = N
    ∧ (T.statesResp.1 = 0 →
        (statesProp T st).1
          = Except.ok (T.statesResp.2.map SoapRecord.asdict))
    ∧ (T.statesResp.1 ≠ 0 →
        (statesProp T st).1
          = Except.error (PyError.pingdomException (.int T.statesResp.1)
              (pingdomMessage T.statesResp.1))) := by
  obtain ⟨h1, h2⟩ := runStates_count T N st
  refine ⟨h1, h2, fun h0 => ?_, fun h0 => ?_⟩
  · simp [statesProp, _report_getCurrentStates, h0]
  · simp [statesProp, _report_getCurrentStates, h0,
      raisePingdom_int_eq T.statesResp.1 hdom]

theorem C8_states_never_cached_witness :
    (runStates T0 stFresh 3).2.length = 3
    ∧ countName (runStates T0 stFresh 3).2 "Report_getCurrentStates" = 3
    ∧ (statesProp T0 stFresh).1
        = Except.ok (T0.statesResp.2.map SoapRecord.asdict)
    ∧ (statesProp Tfail stFresh).1
        = Except.error (PyError.pingdomException (.int 6) (pingdomMessage 6)) := by
  have h0 := C8_states_never_cached T0 stFresh 3 (by decide)
  have h1 := C8_states_never_cached Tfail stFresh 3 (by decide)
  exact ⟨h0.1, h0.2.1, h0.2.2.1 (by decide), h1.2.2.2 (by decide)⟩

/-- C9: the public `downtimes` method always raises `TypeError` — it calls
`_report_getDowntimes`, which requires four positional arguments, with none
— before the body runs, so no transport invocation occurs and the instance
state is untouched. -/
theorem C9_downtimes_always_TypeError (T : Transport) (st : Pingdom) :
    downtimes T st
      = (Except.error (PyError.typeError
          "_report_getDowntimes() takes exactly 5 arguments (1 given)"),
         st, []) := rfl

/-- C10: reading the `username` property always raises `AttributeError`:
the body reads the attribute `credentials`, which neither the instance (the
constructor stores the dict only under `_credentials`) nor the class
defines. -/
theorem C10_username_raises_AttributeError (st : Pingdom) :
    usernameProp st
      = Except.error (PyError.attributeError
          "Pingdom instance has no attribute credentials")
    ∧ pingdomHasAttr "credentials" = false
    ∧ pingdomInstanceAttrs.contains "_credentials" = true :=
  ⟨rfl, rfl, rfl⟩

end PingdomSpec
